import Mathlib

/-!
Verification development for the Web-Crawling repository.

The embedding below translates the extraction-and-normalization pipeline of
the repository into Lean:

* `naver_section_101_crawler.py` (static/requests pagination crawler):
  `pick_ul`, `iter_target_lis`, `extract_text`, `parse_item`, `crawl`, and the
  argument clamping of `main`.
* `naver_section_101_crawler_visual.py` (Selenium pagination crawler):
  `crawl_visual` and its per-item parsing.
* `naver_shopping_ranking_scroll5.py` (Selenium scroll crawler):
  `locate_ul`, the growth-poll loop, and `crawl`.

External collaborators (HTTP transport, the live browser, BeautifulSoup's
parser, `time.sleep`, file writing) are modelled at their interface boundary:
a page fetch becomes a function from page number to a parsed document, a
Selenium driver becomes a trace of the observations the code reads from it,
and `Tag.get_text(" ", strip=True)` is modelled by its documented semantics
on the list of descendant text-node strings.
-/

/-! ## String primitives

The Python string operations the crawlers use (`str.strip`, `str.startswith`,
the substring test `in`, and string joining) are modelled directly over the
character list of a `String`, so that every definition evaluates inside the
kernel on concrete inputs. -/

/-- ASCII whitespace, as stripped by Python's `str.strip()`. -/
def isWsChar (c : Char) : Bool :=
  c == ' ' || c == '\t' || c == '\n' || c == '\r'

/-- Python's `str.strip()`: drop leading and trailing whitespace. -/
def pyStrip (s : String) : String :=
  ⟨((s.data.dropWhile isWsChar).reverse.dropWhile isWsChar).reverse⟩

/-- Python's `str.startswith(pre)`. -/
def strStartsWith (s pre : String) : Bool :=
  pre.data.isPrefixOf s.data

/-- Whether `pat` occurs in the character list, at any position. -/
def strContainsAux (pat : List Char) : List Char → Bool
  | [] => pat.isPrefixOf []
  | c :: rest => pat.isPrefixOf (c :: rest) || strContainsAux pat rest

/-- Python's substring test `pat in s`. -/
def hasSubstr (s pat : String) : Bool :=
  strContainsAux pat.data s.data

/-- `" ".join(parts)`. -/
def joinWithSpace : List String → String
  | [] => ""
  | p :: rest => rest.foldl (fun acc q => acc ++ " " ++ q) p

/-- A DOM element as seen by `extract_text`: the list of its descendant
text-node strings, in document order.  `Tag.get_text(sep, strip=True)`
consumes exactly this list. -/
structure El where
  strings : List String := []
deriving DecidableEq

/-- An anchor element: its `href` attribute (`none` when the attribute is
absent) and its descendant text-node strings. -/
structure AnchorNode where
  href : Option String := none
  strings : List String := []
deriving DecidableEq

/-- One element under the headline `ul`, as observed by the selectors that
`parse_item` runs against it.  Each `Option` field records the result of the
corresponding `select_one` call on the source side (`none` = no match). -/
structure LiNode where
  tag : String := "li"
  classes : List String := []
  aTitleHref : Option AnchorNode := none
  aHref : Option AnchorNode := none
  pressEl : Option El := none
  pressEmEl : Option El := none
  pressSpanEl : Option El := none
  datetimeEl : Option El := none
  listTimeEl : Option El := none
  timeEl : Option El := none
  ledeEl : Option El := none
  ledeTextEl : Option El := none
deriving DecidableEq

/-- A top-level element of a parsed document, with the child elements the
item filter scans (descendant elements of the `ul`, in document order). -/
structure DocNode where
  tag : String := "ul"
  id : Option String := none
  children : List LiNode := []
deriving DecidableEq

/-- `HeadlineItem` dataclass of `naver_section_101_crawler.py`. -/
structure HeadlineItem where
  title : String
  url : String
  press : Option String := none
  datetime : Option String := none
  lede : Option String := none
  is_blind : Bool := false
  rank : Option Nat := none
deriving DecidableEq

/-- Errors raised by the static crawler.  `containerNotFound` models the
`RuntimeError` whose message names the `list_id` that was tried. -/
inductive CrawlError where
  | containerNotFound (list_id : String)
deriving DecidableEq

/-- Semantics of BeautifulSoup's `get_text(" ", strip=True)`: strip each
descendant text-node string, drop the ones that become empty, and join the
rest with a single space.  (Library collaborator, modelled from its
documented behaviour because `extract_text` calls it with these arguments.) -/
def getTextSpaceStrip (strings : List String) : String :=
  joinWithSpace ((strings.map pyStrip).filter (fun s => !(s == "")))

/-- `extract_text(el)`: `None` for a missing element, else
`el.get_text(" ", strip=True) or None` (empty string becomes `None`). -/
def extract_text (el : Option El) : Option String :=
  match el with
  | none => none
  | some e =>
    let txt := getTextSpaceStrip e.strings
    if txt == "" then none else some txt

/-- Models `urllib.parse.urljoin` at the interface boundary (library
collaborator): an absolute URL is returned unchanged, anything else is
resolved against the base. -/
def urljoin (base url : String) : String :=
  if strStartsWith url "http://" || strStartsWith url "https://" then url
  else base ++ url

/-- `pick_ul(soup, list_id)`: first element (any tag) whose `id` equals
`list_id`; else the first `ul` whose `id` starts with
`"_SECTION_HEADLINE_LIST_"` (the CSS fallback
`ul[id^="_SECTION_HEADLINE_LIST_"]`); else `None`.  The document is the list
of its elements in document order. -/
def pick_ul (soup : List DocNode) (list_id : String) : Option DocNode :=
  match soup.find? (fun el => el.id == some list_id) with
  | some ul => some ul
  | none =>
    soup.find? (fun el =>
      el.tag == "ul" &&
        (match el.id with
         | some i => strStartsWith i "_SECTION_HEADLINE_LIST_"
         | none => false))

/-- `iter_target_lis(ul)`: the CSS selection
`ul.select("li.sa_item._SECTION_HEADLINE")` — descendant elements with tag
`li` carrying both classes, in document order (`is_blind` extra class does
not disqualify). -/
def iter_target_lis (ul : DocNode) : List LiNode :=
  ul.children.filter (fun li =>
    li.tag == "li" && li.classes.contains "sa_item" &&
      li.classes.contains "_SECTION_HEADLINE")

/-- The element an anchor exposes to `extract_text`. -/
def AnchorNode.textEl (a : AnchorNode) : El := ⟨a.strings⟩

/-- `parse_item(li, base_url)`: reject the item when no anchor resolves or
the resolved anchor's `href` is missing/empty; otherwise build the record
(title defaults to `""` when the anchor has no text, `rank` left unset). -/
def parse_item (li : LiNode) (base_url : String) : Option HeadlineItem :=
  let is_blind := li.classes.contains "is_blind"
  match li.aTitleHref <|> li.aHref with
  | none => none
  | some link =>
    match link.href with
    | none => none
    | some href =>
      if href == "" then none
      else
        let title := (extract_text (some link.textEl)).getD ""
        let url := urljoin base_url href
        let press := extract_text li.pressEl <|> extract_text li.pressEmEl <|>
          extract_text li.pressSpanEl
        let dt := extract_text li.datetimeEl <|> extract_text li.listTimeEl <|>
          extract_text li.timeEl
        let lede := extract_text li.ledeEl <|> extract_text li.ledeTextEl
        some { title := title, url := url, press := press, datetime := dt,
               lede := lede, is_blind := is_blind, rank := none }

/-- Inner loop of `crawl` over the filtered `li` list of one page: a parsed
item gets `rank = len(all_items) + 1` and is appended; a rejected item is
skipped. -/
def crawlPage (base_url : String) : List LiNode → List HeadlineItem → List HeadlineItem
  | [], all => all
  | li :: rest, all =>
    match parse_item li base_url with
    | none => crawlPage base_url rest all
    | some item =>
      crawlPage base_url rest (all ++ [{ item with rank := some (all.length + 1) }])

/-- Page loop of `crawl`: for each page number, fetch and parse the document
(`env` abstracts `fetch_html` + `BeautifulSoup`), locate the container, and
accumulate records; a missing container raises (`RuntimeError`).  The
inter-page `sleep` and the debug print have no effect on the records. -/
def crawlPages (env : Nat → List DocNode) (list_id base_url : String) :
    List Nat → List HeadlineItem → Except CrawlError (List HeadlineItem)
  | [], all => Except.ok all
  | p :: ps, all =>
    match pick_ul (env p) list_id with
    | none => Except.error (CrawlError.containerNotFound list_id)
    | some ul => crawlPages env list_id base_url ps (crawlPage base_url (iter_target_lis ul) all)

/-- `crawl(section_url, list_id, pages, ...)` of the static crawler:
iterate `for page in range(1, pages + 1)` starting from an empty
accumulator. -/
def crawl (env : Nat → List DocNode) (list_id base_url : String) (pages : Nat) :
    Except CrawlError (List HeadlineItem) :=
  crawlPages env list_id base_url (List.range' 1 pages) []

/-- State of the `requests.Session` built by `build_session`.  The source of
`naver_section_101_crawler.py` contains no `session.close()` call and no
context manager around the session, so no code path ever sets `closed`. -/
structure SessionState where
  closed : Bool
deriving DecidableEq

/-- `build_session(timeout)`: returns a fresh, open session (headers, retry
policy and timeout are transport configuration, modelled away). -/
def build_session : SessionState := { closed := false }

/-- `crawl` of the static crawler together with the state of the session it
acquires: the session is created at entry and is never closed on any exit
path — on success the function simply returns, on the container-not-found
path the exception propagates with the session still open. -/
def crawl_with_session (env : Nat → List DocNode) (list_id base_url : String)
    (pages : Nat) : Except CrawlError (List HeadlineItem) × SessionState :=
  let session := build_session
  (crawl env list_id base_url pages, session)

/-! ## Visual (Selenium) pagination crawler — `naver_section_101_crawler_visual.py` -/

/-- A Selenium anchor: its rendered text and its `href` attribute
(`get_attribute` may return `None`). -/
structure VAnchor where
  text : String := ""
  href : Option String := none
deriving DecidableEq

/-- A Selenium element with rendered text. -/
structure VEl where
  text : String := ""
deriving DecidableEq

/-- One `li` as observed by the visual crawler: the `class` attribute string
(`get_attribute("class")`, possibly `None`) and the results of the
`find_element` calls run against it (`none` = `NoSuchElementException`). -/
structure VisualLi where
  classAttr : Option String := none
  aTitle : Option VAnchor := none
  aHref : Option VAnchor := none
  pressEl : Option VEl := none
  ledeEl : Option VEl := none
  datetimeEl : Option VEl := none
  listTimeEl : Option VEl := none
deriving DecidableEq

/-- `HeadlineItem` dataclass of the visual crawler; `url` can receive `None`
when `get_attribute("href")` returns `None`. -/
structure VHeadlineItem where
  title : String
  url : Option String := none
  press : Option String := none
  datetime : Option String := none
  lede : Option String := none
  is_blind : Bool := false
  rank : Option Nat := none
deriving DecidableEq

/-- What one page shows the visual crawler: whether the `WebDriverWait` for
`ul[id^='_SECTION_HEADLINE_LIST_']` succeeds within the timeout, and the
result of the subsequent `find_element` (with the filtered `li` list it
yields). -/
structure VisualPage where
  waitOk : Bool := true
  ul : Option (List VisualLi) := none
deriving DecidableEq

/-- `extract_text(element, by, selector)` of the visual crawler:
`None` on `NoSuchElementException`, else `el.text.strip() or None`. -/
def vextract_text (el : Option VEl) : Option String :=
  match el with
  | none => none
  | some e =>
    let t := pyStrip e.text
    if t == "" then none else some t

/-- The per-`li` body of `crawl_visual`: `is_blind` is a substring test on
the class attribute (`"is_blind" in classes if classes else False`); the
title anchor falls back to `a[href]`, and when both `find_element` calls
raise, the surrounding `except` skips the item; the record is created with
`rank = len(all_items) + 1`. -/
def parse_visual_li (li : VisualLi) (rank : Nat) : Option VHeadlineItem :=
  let is_blind :=
    match li.classAttr with
    | none => false
    | some s => hasSubstr s "is_blind"
  match li.aTitle <|> li.aHref with
  | none => none
  | some a =>
    let press := vextract_text li.pressEl
    let lede := vextract_text li.ledeEl
    let dt := vextract_text li.datetimeEl <|> vextract_text li.listTimeEl
    some { title := pyStrip a.text, url := a.href, press := press, datetime := dt,
           lede := lede, is_blind := is_blind, rank := some rank }

/-- Item loop of `crawl_visual` over one page's `li` list. -/
def parseVisualLis : List VisualLi → List VHeadlineItem → List VHeadlineItem
  | [], all => all
  | li :: rest, all =>
    match parse_visual_li li (all.length + 1) with
    | none => parseVisualLis rest all
    | some it => parseVisualLis rest (all ++ [it])

/-- Page loop of `crawl_visual`: a page whose wait times out is reported and
skipped (`continue`), a page whose `find_element` raises is skipped — in
both cases the run proceeds with the remaining pages. -/
def crawlVisualPages (env : Nat → VisualPage) :
    List Nat → List VHeadlineItem → List VHeadlineItem
  | [], all => all
  | p :: ps, all =>
    let pg := env p
    if pg.waitOk then
      match pg.ul with
      | none => crawlVisualPages env ps all
      | some lis => crawlVisualPages env ps (parseVisualLis lis all)
    else crawlVisualPages env ps all

/-- `crawl_visual(section_url, pages, ...)`: the driver is acquired before
the `try` and the `finally` block calls `driver.quit()` on every exit path,
so the returned flag (driver quit) is `true` however the body ends. -/
def crawl_visual (env : Nat → VisualPage) (pages : Nat) :
    List VHeadlineItem × Bool :=
  (crawlVisualPages env (List.range' 1 pages) [], true)

/-! ## Scroll-growth crawler — `naver_shopping_ranking_scroll5.py` -/

/-- A raw `li` element at the final extraction pass: `li.text or ""` and
`li.get_attribute("outerHTML") or ""`. -/
structure LiRaw where
  text : String := ""
  outerHtml : String := ""
deriving DecidableEq

/-- `LiItem` dataclass of the scroll crawler. -/
structure LiItem where
  idx : Nat
  text : String
  outer_html : String
deriving DecidableEq

/-- One scroll step as the driver trace shows it: whether the CSS and the
XPath locators find the `ul` within the timeout, and the successive
`li_count_under_ul` readings the 0.2-second poll loop observes before the
growth timeout elapses (an exhausted list = the timeout fired first). -/
structure StepTrace where
  cssFound : Bool := true
  xpathFound : Bool := false
  polls : List Nat := []
deriving DecidableEq

/-- Errors of the scroll crawler run. -/
inductive ScrollError where
  | driverBuild
  | pageLoad
  | locateTimeout
deriving DecidableEq

/-- The whole driver trace of one scroll-crawler run. -/
structure ScrollEnv where
  buildOk : Bool := true
  readyOk : Bool := true
  initCssFound : Bool := true
  initXpathFound : Bool := false
  initialCount : Nat := 0
  steps : List StepTrace := []
  finCssFound : Bool := true
  finXpathFound : Bool := false
  finalLis : List LiRaw := []

/-- `locate_ul`: try the CSS selector, and on `TimeoutException` try the
XPath; both failing propagates the exception. -/
def locate_ul (cssFound xpathFound : Bool) : Bool :=
  cssFound || xpathFound

/-- The growth poll: `while time.time() < end_t: cur = li_count(...); if
cur > prev: prev = cur; break; sleep(0.2)` — return the first observed count
exceeding `prev`, or `prev` unchanged when the timeout exhausts the
observations. -/
def pollLoop : List Nat → Nat → Nat
  | [], prev => prev
  | c :: rest, prev => if prev < c then c else pollLoop rest prev

/-- The scroll loop `for i in range(scrolls)`: each step re-locates the
`ul` (a failure of both locators raises out of the run) and runs the growth
poll; a growth timeout is not an error. -/
def runScrollSteps : List StepTrace → Nat → Except ScrollError Nat
  | [], prev => Except.ok prev
  | st :: rest, prev =>
    if locate_ul st.cssFound st.xpathFound then
      runScrollSteps rest (pollLoop st.polls prev)
    else Except.error ScrollError.locateTimeout

/-- Final extraction pass: `enumerate(li_elems, start=1)` with
`text = (li.text or "").strip()`. -/
def enumerateLis (lis : List LiRaw) : List LiItem :=
  lis.enum.map (fun p => { idx := p.1 + 1, text := pyStrip p.2.text,
                           outer_html := p.2.outerHtml })

/-- `crawl(...)` of the scroll crawler, paired with whether `driver.quit()`
ran: the whole body is inside `try ... finally: if driver: driver.quit()`,
so once the driver is built, quit is attempted on every exit path; if
`build_driver` itself fails there is no driver to quit. -/
def crawl_scroll (env : ScrollEnv) : Except ScrollError (List LiItem) × Bool :=
  if env.buildOk then
    let res : Except ScrollError (List LiItem) :=
      if env.readyOk then
        if locate_ul env.initCssFound env.initXpathFound then
          match runScrollSteps env.steps env.initialCount with
          | Except.error e => Except.error e
          | Except.ok _ =>
            if locate_ul env.finCssFound env.finXpathFound then
              Except.ok (enumerateLis env.finalLis)
            else Except.error ScrollError.locateTimeout
        else Except.error ScrollError.locateTimeout
      else Except.error ScrollError.pageLoad
    (res, true)
  else (Except.error ScrollError.driverBuild, false)

/-! ## Entry-point argument clamping -/

/-- `main` of the static crawler: `pages=max(1, args.pages)`. -/
def section_main_pages (p : Int) : Int := max 1 p

/-- `main` of the static crawler: `sleep=max(0.0, args.sleep)`. -/
def section_main_sleep (s : Rat) : Rat := max 0 s

/-- `main` of the static crawler: `timeout=max(1.0, args.timeout)`. -/
def section_main_timeout (t : Rat) : Rat := max 1 t

/-- `main` of the scroll crawler: `scrolls=max(0, args.scrolls)`. -/
def scroll_main_scrolls (n : Int) : Int := max 0 n

/-- `main` of the scroll crawler: `wait_sec=max(0.0, args.wait_sec)`. -/
def scroll_main_wait_sec (w : Rat) : Rat := max 0 w

/-- `main` of the scroll crawler: `timeout=max(1.0, args.timeout)`. -/
def scroll_main_timeout (t : Rat) : Rat := max 1 t

/-! ## Spec-side definitions used to compare the code against the
specification's wording -/

/-- Modelled from the spec's wording of the container locator (C3): exact
identifier match first, else the first node of **any** tag, in document
order, whose identifier starts with the prefix pattern.  Compare with
`pick_ul`, whose fallback only considers `ul` elements. -/
def locate_spec (soup : List DocNode) (list_id : String) : Option DocNode :=
  match soup.find? (fun el => el.id == some list_id) with
  | some ul => some ul
  | none =>
    soup.find? (fun el =>
      match el.id with
      | some i => strStartsWith i "_SECTION_HEADLINE_LIST_"
      | none => false)

/-- The field-extraction chain pattern of `parse_item`
(`extract_text(li.select_one(s1)) or extract_text(li.select_one(s2)) or ...`)
over an ordered list of candidate `select_one` results. -/
def chainExtract : List (Option El) → Option String
  | [] => none
  | c :: rest => extract_text c <|> chainExtract rest

/-- The maximal whitespace-free runs of a character list, in order
(`acc` holds the current run reversed). -/
def wordsAux : List Char → List Char → List (List Char)
  | [], acc => if acc.isEmpty then [] else [acc.reverse]
  | c :: rest, acc =>
    if isWsChar c then
      if acc.isEmpty then wordsAux rest []
      else acc.reverse :: wordsAux rest []
    else wordsAux rest (c :: acc)

/-- Spec-side text normalization: collapse every run of whitespace to a
single space and trim. -/
def collapseWs (s : String) : String :=
  joinWithSpace ((wordsAux s.data []).map (fun cs => String.mk cs))

/-- The running count threaded through the scroll steps of the scroll
crawler (the successive values of `prev_count`). -/
def prevAfter (init : Nat) (steps : List StepTrace) : Nat :=
  steps.foldl (fun p s => pollLoop s.polls p) init

/-! ## Helper lemmas -/

/-- `find?` returns the marked element when nothing before it satisfies the
predicate and it does. -/
theorem find?_append_first {α : Type} (p : α → Bool) (pre post : List α) (x : α)
    (hpre : ∀ y ∈ pre, p y = false) (hx : p x = true) :
    (pre ++ x :: post).find? p = some x := by
  induction pre with
  | nil => simp [List.find?, hx]
  | cons a as ih =>
    have ha : p a = false := hpre a (List.mem_cons_self a as)
    simp only [List.cons_append, List.find?, ha]
    exact ih (fun y hy => hpre y (List.mem_cons_of_mem a hy))

/-- `find?` fails when no element satisfies the predicate. -/
theorem find?_eq_none_of_forall {α : Type} (p : α → Bool) (l : List α)
    (h : ∀ y ∈ l, p y = false) : l.find? p = none := by
  induction l with
  | nil => rfl
  | cons a as ih =>
    have ha : p a = false := h a (List.mem_cons_self a as)
    simp only [List.find?, ha]
    exact ih (fun y hy => h y (List.mem_cons_of_mem a hy))

/-- The rank invariant: the ranks of a record list are exactly
`some 1, ..., some n` in order. -/
def ranksOk (l : List HeadlineItem) : Prop :=
  l.map (fun it => it.rank) = (List.range' 1 l.length).map some

theorem ranksOk_nil : ranksOk [] := rfl

theorem ranksOk_append (l : List HeadlineItem) (x : HeadlineItem)
    (h : ranksOk l) (hx : x.rank = some (l.length + 1)) : ranksOk (l ++ [x]) := by
  unfold ranksOk at h ⊢
  have hlen : (l ++ [x]).length = l.length + 1 := by simp
  rw [List.map_append, h, hlen, List.range'_concat, List.map_append]
  simp [hx, Nat.add_comm]

/-- `crawlPage` preserves the rank invariant: each accepted item is ranked
`count(accepted so far) + 1`. -/
theorem crawlPage_ranksOk (base : String) (lis : List LiNode)
    (all : List HeadlineItem) (h : ranksOk all) :
    ranksOk (crawlPage base lis all) := by
  induction lis generalizing all with
  | nil => simpa [crawlPage] using h
  | cons li rest ih =>
    unfold crawlPage
    cases hp : parse_item li base with
    | none => exact ih all h
    | some item =>
      exact ih _ (ranksOk_append all _ h rfl)

/-- `crawlPages` preserves the rank invariant across page boundaries. -/
theorem crawlPages_ranksOk (env : Nat → List DocNode) (lid base : String)
    (ps : List Nat) (all items : List HeadlineItem) (h : ranksOk all)
    (hrun : crawlPages env lid base ps all = Except.ok items) : ranksOk items := by
  induction ps generalizing all with
  | nil =>
    unfold crawlPages at hrun
    cases hrun
    exact h
  | cons p rest ih =>
    unfold crawlPages at hrun
    cases hu : pick_ul (env p) lid with
    | none => rw [hu] at hrun; cases hrun
    | some ul =>
      rw [hu] at hrun
      exact ih _ (crawlPage_ranksOk base (iter_target_lis ul) all h) hrun

/-- C1: In the pagination-mode assembler, every accepted item gets
`rank = count(accepted so far) + 1`, so the ranks of a successful run's
output are exactly `1..N`, consecutive, with no gaps and no per-page resets
across the whole multi-page run. -/
theorem crawl_rank_sequence (env : Nat → List DocNode) (lid base : String)
    (pages : Nat) (items : List HeadlineItem)
    (h : crawl env lid base pages = Except.ok items) :
    items.map (fun it => it.rank) = (List.range' 1 items.length).map some :=
  crawlPages_ranksOk env lid base (List.range' 1 pages) [] items ranksOk_nil h

/-- A qualifying item node with a linked title anchor (fixture). -/
def mkLinkedLi (t u : String) : LiNode :=
  { classes := ["sa_item", "_SECTION_HEADLINE"],
    aTitleHref := some { href := some u, strings := [t] } }

/-- Fixture pages for the rank-sequence witness: page 1 yields two accepted
items, page 2 yields one. -/
def c1env : Nat → List DocNode := fun p =>
  if p == 1 then
    [{ id := some "LID",
       children := [mkLinkedLi "t1" "http://x/1", mkLinkedLi "t2" "http://x/2"] }]
  else
    [{ id := some "LID", children := [mkLinkedLi "t3" "http://x/3"] }]

/-- The records the fixture run produces. -/
def c1items : List HeadlineItem :=
  [{ title := "t1", url := "http://x/1", rank := some 1 },
   { title := "t2", url := "http://x/2", rank := some 2 },
   { title := "t3", url := "http://x/3", rank := some 3 }]

/-- Witness for C1: a concrete two-page run (2 + 1 accepted items) whose
ranks come out as exactly `1, 2, 3`. -/
theorem crawl_rank_sequence_witness :
    c1items.map (fun it => it.rank) = (List.range' 1 c1items.length).map some :=
  crawl_rank_sequence c1env "LID" "http://b/" 2 c1items (by rfl)

/-- A qualifying item node with no anchor at all (fixture). -/
def c2linkless : LiNode := { classes := ["sa_item", "_SECTION_HEADLINE"] }

/-- Five qualifying item nodes, the third of which has no resolvable link
(fixture for dropped-item accounting). -/
def c2lis : List LiNode :=
  [mkLinkedLi "n1" "http://x/1", mkLinkedLi "n2" "http://x/2", c2linkless,
   mkLinkedLi "n4" "http://x/4", mkLinkedLi "n5" "http://x/5"]

/-- C2: an item in which neither anchor selector resolves yields no record,
and a skipped item consumes no rank slot: 5 qualifying items with 1 unlinked
produce exactly 4 records ranked 1..4. -/
theorem parse_item_dropped_no_rank :
    (∀ (li : LiNode) (base : String), li.aTitleHref = none → li.aHref = none →
      parse_item li base = none)
    ∧ (crawlPage "http://b/" c2lis []).map (fun it => it.rank) =
        [some 1, some 2, some 3, some 4]
    ∧ (crawlPage "http://b/" c2lis []).length = 4 := by
  refine ⟨fun li base h1 h2 => ?_, by rfl, by rfl⟩
  simp [parse_item, h1, h2]

/-- Witness for C2 at a concrete unlinked node. -/
theorem parse_item_dropped_no_rank_witness :
    parse_item c2linkless "http://b/" = none :=
  parse_item_dropped_no_rank.1 c2linkless "http://b/" rfl rfl

/-- A non-`ul` element whose identifier matches the fallback prefix
(fixture for the locator fallback). -/
def c3div : DocNode := { tag := "div", id := some "_SECTION_HEADLINE_LIST_x" }

/-- A document containing only that element. -/
def c3doc : List DocNode := [c3div]

/-- Counterexample to C3 as stated: the document lacks the primary id and
its only prefix-matching node is a `div`; the spec-worded locator returns
that node, but `pick_ul` (whose fallback selects only `ul` elements)
returns `None`. -/
theorem pick_ul_any_tag_counterexample :
    locate_spec c3doc "MAIN" = some c3div ∧ pick_ul c3doc "MAIN" = none :=
  ⟨rfl, rfl⟩

/-- C3 (amended: the fallback considers only `ul` elements): the locator
returns the first element whose id equals the primary id when one exists;
otherwise the first `ul` element, in document order, whose id starts with
the prefix; and `None` when neither exists. -/
theorem pick_ul_locates :
    (∀ (pre post : List DocNode) (el : DocNode) (lid : String),
      el.id = some lid → (∀ x ∈ pre, x.id ≠ some lid) →
      pick_ul (pre ++ el :: post) lid = some el)
    ∧ (∀ (pre post : List DocNode) (el : DocNode) (lid : String),
      (∀ x ∈ pre ++ el :: post, x.id ≠ some lid) →
      el.tag = "ul" →
      (∃ i, el.id = some i ∧ strStartsWith i "_SECTION_HEADLINE_LIST_" = true) →
      (∀ x ∈ pre, x.tag ≠ "ul" ∨
        ∀ i, x.id = some i → strStartsWith i "_SECTION_HEADLINE_LIST_" = false) →
      pick_ul (pre ++ el :: post) lid = some el)
    ∧ (∀ (soup : List DocNode) (lid : String),
      (∀ x ∈ soup, x.id ≠ some lid) →
      (∀ x ∈ soup, x.tag ≠ "ul" ∨
        ∀ i, x.id = some i → strStartsWith i "_SECTION_HEADLINE_LIST_" = false) →
      pick_ul soup lid = none) := by
  have hexact : ∀ (x : DocNode) (lid : String), x.id ≠ some lid →
      (x.id == some lid) = false := by
    intro x lid hx
    simpa using hx
  have hfb : ∀ x : DocNode,
      (x.tag ≠ "ul" ∨
        ∀ i, x.id = some i → strStartsWith i "_SECTION_HEADLINE_LIST_" = false) →
      (x.tag == "ul" &&
        (match x.id with
         | some i => strStartsWith i "_SECTION_HEADLINE_LIST_"
         | none => false)) = false := by
    intro x hx
    rcases hx with h | h
    · simp [h]
    · cases hid : x.id with
      | none => simp
      | some i => simp [h i hid]
  refine ⟨?_, ?_, ?_⟩
  · intro pre post el lid hel hpre
    unfold pick_ul
    rw [find?_append_first _ pre post el (fun y hy => hexact y lid (hpre y hy))
      (by simp [hel])]
  · intro pre post el lid hall heltag hfallb hpre
    unfold pick_ul
    rw [find?_eq_none_of_forall _ _ (fun y hy => hexact y lid (hall y hy))]
    rcases hfallb with ⟨i, hid, hsw⟩
    rw [find?_append_first _ pre post el (fun y hy => hfb y (hpre y hy))
      (by simp [heltag, hid, hsw])]
  · intro soup lid hall hfallb
    unfold pick_ul
    rw [find?_eq_none_of_forall _ _ (fun y hy => hexact y lid (hall y hy))]
    rw [find?_eq_none_of_forall _ _ (fun y hy => hfb y (hfallb y hy))]

/-- An element carrying the primary id (fixture for the locator witness). -/
def c3main : DocNode := { id := some "MAIN" }

/-- Witness for the amended C3 at a concrete document. -/
theorem pick_ul_locates_witness :
    pick_ul ([] ++ c3main :: []) "MAIN" = some c3main :=
  pick_ul_locates.1 [] [] c3main "MAIN" rfl (by simp)

/-- Blind qualifying item (fixture for filter precision). -/
def c5blind : LiNode :=
  { classes := ["sa_item", "_SECTION_HEADLINE", "is_blind"],
    aTitleHref := some { href := some "http://x/b", strings := ["bt"] } }

/-- Item with only the base class (fixture). -/
def c5only : LiNode := { classes := ["sa_item"] }

/-- Item with exactly base and marker class (fixture). -/
def c5exact : LiNode :=
  { classes := ["sa_item", "_SECTION_HEADLINE"],
    aTitleHref := some { href := some "http://x/e", strings := ["et"] } }

/-- Container holding the three fixture items. -/
def c5ul : DocNode :=
  { id := some "_SECTION_HEADLINE_LIST_demo", children := [c5blind, c5only, c5exact] }

/-- Modelled from the spec's wording of the item filter (C5): exactly the
child nodes whose class set is a superset of
`{sa_item, _SECTION_HEADLINE}`, regardless of tag.  Compare with
`iter_target_lis`, whose selector `li.sa_item._SECTION_HEADLINE` also
requires the `li` tag. -/
def filter_spec (ul : DocNode) : List LiNode :=
  ul.children.filter (fun li =>
    li.classes.contains "sa_item" && li.classes.contains "_SECTION_HEADLINE")

/-- A non-`li` child carrying both classes (fixture). -/
def c5span : LiNode := { tag := "span", classes := ["sa_item", "_SECTION_HEADLINE"] }

/-- A container whose only child is that non-`li` element. -/
def c5mixedUl : DocNode :=
  { id := some "_SECTION_HEADLINE_LIST_mix", children := [c5span] }

/-- Counterexample to C5 as stated: a non-`li` child whose class set is a
superset of `{sa_item, _SECTION_HEADLINE}` is included by the claim's
class-set filter but excluded by the code — the selector
`li.sa_item._SECTION_HEADLINE` also requires the `li` tag. -/
theorem iter_target_lis_nonli_counterexample :
    filter_spec c5mixedUl = [c5span] ∧ iter_target_lis c5mixedUl = [] :=
  ⟨rfl, rfl⟩

/-- C5 (amended: the filter also requires the `li` tag): the item filter
yields exactly the `li`-tagged children whose class set is a superset of
`{sa_item, _SECTION_HEADLINE}`, in document order; a
`{sa_item, _SECTION_HEADLINE, is_blind}` list item is kept with
`is_blind = true`, a `{sa_item}` one is dropped, and a
`{sa_item, _SECTION_HEADLINE}` one is kept with `is_blind = false`. -/
theorem iter_target_lis_li_filter :
    (∀ ul : DocNode, iter_target_lis ul = ul.children.filter
        (fun li => decide (li.tag = "li" ∧
          ["sa_item", "_SECTION_HEADLINE"] ⊆ li.classes)))
    ∧ iter_target_lis c5ul = [c5blind, c5exact]
    ∧ (parse_item c5blind "http://b/").map (fun it => it.is_blind) = some true
    ∧ (parse_item c5exact "http://b/").map (fun it => it.is_blind) = some false := by
  refine ⟨fun ul => ?_, by rfl, by rfl, by rfl⟩
  unfold iter_target_lis
  refine List.filter_congr ?_
  intro li _
  by_cases h1 : li.tag = "li" <;> by_cases h2 : "sa_item" ∈ li.classes <;>
    by_cases h3 : "_SECTION_HEADLINE" ∈ li.classes <;>
    simp [List.contains, h1, h2, h3]

/-- A visual-crawler item with a resolvable link (fixture). -/
def c4goodLi : VisualLi :=
  { classAttr := some "sa_item _SECTION_HEADLINE",
    aTitle := some { text := "v1", href := some "http://x/v1" } }

/-- A two-page visual run: on page 1 the wait for the container times out,
page 2 has the container with one item (fixture). -/
def c4env : Nat → VisualPage := fun p =>
  if p == 2 then { waitOk := true, ul := some [c4goodLi] }
  else { waitOk := false, ul := none }

/-- The record page 2 contributes. -/
def c4item : VHeadlineItem :=
  { title := "v1", url := some "http://x/v1", rank := some 1 }

/-- Counterexample to C4 as stated: in the visual pagination crawler the
container cannot be located on page 1, yet the run does not abort — it skips
the page and silently returns the partial record sequence of the remaining
page. -/
theorem crawl_visual_no_abort_counterexample :
    (c4env 1).waitOk = false ∧ (crawl_visual c4env 2).1 = [c4item] :=
  ⟨rfl, rfl⟩

/-- If some listed page has no locatable container, the static page loop
aborts with `ContainerNotFound` naming the identifier. -/
theorem crawlPages_error_of_missing (env : Nat → List DocNode) (lid base : String)
    (ps : List Nat) (all : List HeadlineItem)
    (h : ∃ p ∈ ps, pick_ul (env p) lid = none) :
    crawlPages env lid base ps all = Except.error (CrawlError.containerNotFound lid) := by
  induction ps generalizing all with
  | nil => rcases h with ⟨p, hp, _⟩; cases hp
  | cons q rest ih =>
    unfold crawlPages
    cases hu : pick_ul (env q) lid with
    | none => rfl
    | some ul =>
      rcases h with ⟨p, hp, hnone⟩
      rcases List.mem_cons.mp hp with rfl | hmem
      · rw [hu] at hnone; cases hnone
      · exact ih _ ⟨p, hmem, hnone⟩

/-- C4 (amended: this holds for the static crawler; the visual variant
instead logs and skips the page, see the counterexample): if the container
cannot be located on any page of the run — exact id and `ul`-prefix fallback
both failing — the whole static run aborts with `ContainerNotFound` carrying
the identifier tried, and no partial record sequence is returned. -/
theorem crawl_aborts_on_missing_container (env : Nat → List DocNode)
    (lid base : String) (pages p : Nat)
    (hp : p ∈ List.range' 1 pages) (hnone : pick_ul (env p) lid = none) :
    crawl env lid base pages = Except.error (CrawlError.containerNotFound lid) :=
  crawlPages_error_of_missing env lid base (List.range' 1 pages) [] ⟨p, hp, hnone⟩

/-- Witness for the amended C4: a one-page run over an empty document
aborts. -/
theorem crawl_aborts_on_missing_container_witness :
    crawl (fun _ => []) "LID" "http://b/" 1 =
      Except.error (CrawlError.containerNotFound "LID") :=
  crawl_aborts_on_missing_container (fun _ => []) "LID" "http://b/" 1 1
    (by decide) rfl

/-- A qualifying item whose link anchor has no text (fixture). -/
def c6li : LiNode :=
  { classes := ["sa_item", "_SECTION_HEADLINE"],
    aTitleHref := some { href := some "http://x/6", strings := [] } }

/-- A one-page document containing only that item. -/
def c6env : Nat → List DocNode := fun _ => [{ id := some "LID", children := [c6li] }]

/-- The record the pipeline emits for it. -/
def c6item : HeadlineItem := { title := "", url := "http://x/6", rank := some 1 }

/-- Counterexample to C6 as stated: a successful run emits a record whose
title is empty (and stays empty after trimming) — `parse_item` falls back to
`""` when the resolved anchor has no text instead of rejecting the item. -/
theorem empty_title_emitted_counterexample :
    crawl c6env "LID" "http://b/" 1 = Except.ok [c6item]
    ∧ pyStrip c6item.title = "" :=
  ⟨rfl, rfl⟩

/-- C6 (amended: non-emptiness is not guaranteed): every emitted record's
title is the normalized visible text of its resolved link anchor, defaulting
to the empty string when that anchor yields no text — so empty-titled
records can appear in the output. -/
theorem title_matches_link_anchor (li : LiNode) (base : String)
    (it : HeadlineItem) (h : parse_item li base = some it) :
    ∃ a : AnchorNode, (li.aTitleHref <|> li.aHref) = some a ∧
      it.title = (extract_text (some a.textEl)).getD "" := by
  cases hl : li.aTitleHref <|> li.aHref with
  | none => simp [parse_item, hl] at h
  | some link =>
    cases hh : link.href with
    | none => simp [parse_item, hl, hh] at h
    | some href =>
      by_cases he : href = ""
      · simp [parse_item, hl, hh, he] at h
      · refine ⟨link, rfl, ?_⟩
        simp only [parse_item, hl, hh, he, beq_iff_eq, if_neg, if_false,
          Option.some.injEq] at h
        subst h
        rfl

/-- The record `parse_item` alone produces for the C6 fixture (rank not yet
assigned). -/
def c6parsed : HeadlineItem := { title := "", url := "http://x/6" }

/-- Witness for the amended C6 at the concrete no-text anchor. -/
theorem title_matches_link_anchor_witness :
    ∃ a : AnchorNode, (c6li.aTitleHref <|> c6li.aHref) = some a ∧
      c6parsed.title = (extract_text (some a.textEl)).getD "" :=
  title_matches_link_anchor c6li "http://b/" c6parsed rfl

/-- An element whose single text node contains an internal double space
(fixture). -/
def c7el : El := ⟨["a  b"]⟩

/-- Counterexample to C7 as stated: the chain returns the text of its first
non-empty candidate, but that text is not whitespace-collapsed — internal
whitespace inside one text node survives `get_text(" ", strip=True)`. -/
theorem chain_text_not_collapsed_counterexample :
    chainExtract [some c7el] = some "a  b"
    ∧ collapseWs "a  b" = "a b"
    ∧ ("a  b" : String) ≠ "a b" :=
  ⟨rfl, rfl, by decide⟩

/-- C7 (amended: the text is normalized per text node — each fragment
trimmed, fragments joined with single spaces — rather than fully
whitespace-collapsed): the extractor returns the normalized text of the
first candidate yielding non-empty text, returns `None` when no candidate
yields non-empty text (empty string becomes `None`), and, being a total
function, never raises. -/
theorem chainExtract_first_nonempty :
    (∀ (pre : List (Option El)) (e : El) (post : List (Option El)),
      (∀ c ∈ pre, extract_text c = none) →
      getTextSpaceStrip e.strings ≠ "" →
      chainExtract (pre ++ some e :: post) = some (getTextSpaceStrip e.strings))
    ∧ (∀ cands : List (Option El), (∀ c ∈ cands, extract_text c = none) →
      chainExtract cands = none)
    ∧ (∀ e : El, getTextSpaceStrip e.strings = "" → extract_text (some e) = none) := by
  have hsome : ∀ e : El, getTextSpaceStrip e.strings ≠ "" →
      extract_text (some e) = some (getTextSpaceStrip e.strings) := by
    intro e he
    simp [extract_text, he]
  refine ⟨?_, ?_, ?_⟩
  · intro pre e post hpre he
    induction pre with
    | nil => simp [chainExtract, hsome e he]
    | cons c cs ih =>
      have hc : extract_text c = none := hpre c (List.mem_cons_self c cs)
      simp only [List.cons_append, chainExtract, hc, Option.none_orElse]
      exact ih (fun x hx => hpre x (List.mem_cons_of_mem c hx))
  · intro cands h
    induction cands with
    | nil => rfl
    | cons c cs ih =>
      have hc : extract_text c = none := h c (List.mem_cons_self c cs)
      simp only [chainExtract, hc, Option.none_orElse]
      exact ih (fun x hx => h x (List.mem_cons_of_mem c hx))
  · intro e he
    simp [extract_text, he]

/-- Witness for the amended C7: a `None` candidate followed by a non-empty
one — the chain returns the second candidate's normalized text. -/
theorem chainExtract_first_nonempty_witness :
    chainExtract ([none] ++ some (⟨["x"]⟩ : El) :: []) =
      some (getTextSpaceStrip ["x"]) :=
  chainExtract_first_nonempty.1 [none] ⟨["x"]⟩ [] (by simp [extract_text])
    (by decide)

/-- A growth poll whose every observation fails to exceed the previous count
leaves the count unchanged (the timeout path of the poll loop). -/
theorem pollLoop_no_growth (obs : List Nat) (prev : Nat)
    (h : ∀ c ∈ obs, c ≤ prev) : pollLoop obs prev = prev := by
  induction obs with
  | nil => rfl
  | cons c rest ih =>
    have hc : ¬ prev < c := Nat.not_lt.mpr (h c (List.mem_cons_self c rest))
    simp only [pollLoop, if_neg hc]
    exact ih (fun x hx => h x (List.mem_cons_of_mem c hx))

/-- When every step's locators succeed, the scroll loop completes and the
running count is the fold of the polls. -/
theorem runScrollSteps_ok (steps : List StepTrace) (prev : Nat)
    (h : ∀ s ∈ steps, locate_ul s.cssFound s.xpathFound = true) :
    runScrollSteps steps prev = Except.ok (prevAfter prev steps) := by
  induction steps generalizing prev with
  | nil => rfl
  | cons st rest ih =>
    have hst : locate_ul st.cssFound st.xpathFound = true :=
      h st (List.mem_cons_self st rest)
    simp only [runScrollSteps, if_pos hst, prevAfter, List.foldl_cons]
    exact ih (pollLoop st.polls prev) (fun x hx => h x (List.mem_cons_of_mem st hx))

/-- C8: a growth timeout on a scroll step is not fatal — the step leaves the
running count unchanged, the loop proceeds through the remaining steps, and
the final extraction pass still re-locates the container and returns every
child item present at that moment. -/
theorem scroll_growth_timeout_not_fatal (env : ScrollEnv)
    (pre post : List StepTrace) (st : StepTrace)
    (hb : env.buildOk = true) (hr : env.readyOk = true)
    (hi : locate_ul env.initCssFound env.initXpathFound = true)
    (hs : ∀ s ∈ env.steps, locate_ul s.cssFound s.xpathFound = true)
    (hf : locate_ul env.finCssFound env.finXpathFound = true)
    (_hsplit : env.steps = pre ++ st :: post)
    (hto : ∀ c ∈ st.polls, c ≤ prevAfter env.initialCount pre) :
    (crawl_scroll env).1 = Except.ok (enumerateLis env.finalLis)
    ∧ prevAfter env.initialCount (pre ++ [st]) = prevAfter env.initialCount pre := by
  constructor
  · simp only [crawl_scroll, hb, hr, hi, hf, if_pos,
      runScrollSteps_ok env.steps env.initialCount hs]
  · unfold prevAfter
    rw [List.foldl_append]
    exact pollLoop_no_growth st.polls _ hto

/-- A run in which the first scroll step's poll observes no growth
(counts 2, 2 against a previous count of 2) (fixture). -/
def c8env : ScrollEnv :=
  { initialCount := 2,
    steps := [{ cssFound := true, xpathFound := false, polls := [2, 2] },
              { cssFound := true, xpathFound := false, polls := [3] }],
    finalLis := [{ text := " x ", outerHtml := "<li>x</li>" }] }

/-- Witness for C8: the no-growth first step does not abort the fixture run;
the second step still runs and the final pass returns the snapshot. -/
theorem scroll_growth_timeout_not_fatal_witness :
    (crawl_scroll c8env).1 = Except.ok (enumerateLis c8env.finalLis)
    ∧ prevAfter c8env.initialCount
        ([] ++ [{ cssFound := true, xpathFound := false, polls := [2, 2] }]) =
      prevAfter c8env.initialCount [] :=
  scroll_growth_timeout_not_fatal c8env []
    [{ cssFound := true, xpathFound := false, polls := [3] }]
    { cssFound := true, xpathFound := false, polls := [2, 2] }
    rfl rfl rfl (by decide) rfl rfl (by decide)

/-- A one-page document whose container is present but empty (fixture for a
normal, successful run of the static crawler). -/
def c9env : Nat → List DocNode := fun _ => [{ id := some "LID" }]

/-- Counterexample to C9 as stated: the static (requests) crawler completes
a run normally and its session is still open at the end — no exit path of
`crawl` in `naver_section_101_crawler.py` closes the session. -/
theorem session_not_closed_counterexample :
    (crawl_with_session c9env "LID" "http://b/" 1).2.closed = false
    ∧ (crawl_with_session c9env "LID" "http://b/" 1).1 = Except.ok [] :=
  ⟨rfl, rfl⟩

/-- C9 (amended: only the Selenium variants release their resource): in the
scroll and visual crawlers the driver acquired at the start is quit on every
exit path once acquired (`try/finally`); the requests variant never closes
its session on any exit path. -/
theorem driver_quit_on_every_exit :
    (∀ env : ScrollEnv, env.buildOk = true → (crawl_scroll env).2 = true)
    ∧ (∀ (env : Nat → VisualPage) (pages : Nat), (crawl_visual env pages).2 = true)
    ∧ (∀ (env : Nat → List DocNode) (lid base : String) (pages : Nat),
        (crawl_with_session env lid base pages).2.closed = false) := by
  refine ⟨fun env h => ?_, fun env pages => rfl, fun env lid base pages => rfl⟩
  simp [crawl_scroll, h]

/-- Witness for the amended C9: a concrete scroll run (default trace) quits
its driver. -/
theorem driver_quit_on_every_exit_witness :
    (crawl_scroll {}).2 = true :=
  driver_quit_on_every_exit.1 {} rfl

/-- C10: the entry points clamp their arguments before calling the crawl
functions — the pagination crawler always receives `pages ≥ 1`,
`sleep ≥ 0.0` and `timeout ≥ 1.0`, the scroll crawler `scrolls ≥ 0` and
`timeout ≥ 1.0`; and `--pages 0` or a negative count clamps to exactly one
page, so the run processes page 1 alone rather than zero pages. -/
theorem main_clamps_arguments :
    (∀ p : Int, 1 ≤ section_main_pages p)
    ∧ (∀ s : Rat, 0 ≤ section_main_sleep s)
    ∧ (∀ t : Rat, 1 ≤ section_main_timeout t)
    ∧ (∀ n : Int, 0 ≤ scroll_main_scrolls n)
    ∧ (∀ w : Rat, 0 ≤ scroll_main_wait_sec w)
    ∧ (∀ t : Rat, 1 ≤ scroll_main_timeout t)
    ∧ (∀ p : Int, p ≤ 0 → (section_main_pages p).toNat = 1)
    ∧ (∀ (env : Nat → List DocNode) (lid base : String),
        crawl env lid base 1 =
          match pick_ul (env 1) lid with
          | none => Except.error (CrawlError.containerNotFound lid)
          | some ul => Except.ok (crawlPage base (iter_target_lis ul) [])) := by
  refine ⟨fun p => le_max_left 1 p, fun s => le_max_left 0 s,
    fun t => le_max_left 1 t, fun n => le_max_left 0 n,
    fun w => le_max_left 0 w, fun t => le_max_left 1 t,
    fun p hp => ?_, fun env lid base => ?_⟩
  · have h1 : section_main_pages p = 1 := max_eq_left (by omega)
    rw [h1]
    rfl
  · show crawlPages env lid base [1] [] = _
    cases h : pick_ul (env 1) lid with
    | none => simp [crawlPages, h]
    | some ul => simp [crawlPages, h]

/-- Witness for C10: a `--pages -3` invocation is clamped to exactly one
page. -/
theorem main_clamps_arguments_witness :
    (section_main_pages (-3)).toNat = 1 :=
  main_clamps_arguments.2.2.2.2.2.2.1 (-3) (by decide)
